import Mathlib

/-!
Shallow embedding of the decision and risk engine of the `paradox` trading
bot (files `risk_management.py`, `trading_bot.py`, `utils.py`, `config.py`).
Machine floats are modelled as exact rationals; `None`/`NaN` values are
modelled with `Option`; exceptions are modelled by explicit fault branches
that return the caller's unchanged state.
-/

namespace Paradox

/-- Position side, the `side` strings `'buy'` / `'sell'` in the source. -/
inductive Side where
  | buy
  | sell
deriving DecidableEq, Repr

/-- Configuration values read by the risk manager and the signal rules
(`config.py`).  Percentages are stored as in the source, e.g. `25` for 25 %;
the derived fractions (`/ 100`) are taken where `RiskManager.__init__`
takes them. -/
structure Config where
  positionSizePercentage : ℚ
  maxLeverage : ℤ
  minLeverage : ℤ
  stopLossPercentage : ℚ
  minTakeProfitPercentage : ℚ
  maxTakeProfitPercentage : ℚ
  rsiOverbought : ℚ
  rsiOversold : ℚ
  volumeThreshold : ℚ
  maxDrawdownPercentage : ℚ
  maxDailyTrades : ℕ
deriving Repr

/-- The default configuration of `config.py` (environment defaults). -/
def defaultConfig : Config :=
  { positionSizePercentage := 25
    maxLeverage := 20
    minLeverage := 5
    stopLossPercentage := 3
    minTakeProfitPercentage := 6
    maxTakeProfitPercentage := 8
    rsiOverbought := 70
    rsiOversold := 30
    volumeThreshold := 3/2
    maxDrawdownPercentage := 15
    maxDailyTrades := 5 }

/-- One element of `TradingState.trades_history`, the dict appended by
`TradingState.update_pnl` (`utils.py`, lines 43–51); the wall-clock `time`
key is omitted. -/
structure TradeRecord where
  side : Option Side
  entry_price : ℚ
  exit_price : ℚ
  position_size : ℚ
  leverage : ℤ
  pnl : ℚ
deriving DecidableEq, Repr

/-- The mutable fields of `utils.TradingState` that the risk manager and the
position state machine read or write.  `position_entry_time` is replaced by
the derived "hours open" quantity that `_check_exit_conditions` computes
from it (`none` models `position_entry_time is None`). -/
structure TradingState where
  active_position : Bool
  position_entry_price : ℚ
  position_size : ℚ
  position_leverage : ℤ
  position_side : Option Side
  take_profit_price : ℚ
  stop_loss_price : ℚ
  daily_trades : ℕ
  total_pnl : ℚ
  trades_history : List TradeRecord
  initial_balance : ℚ
  current_balance : ℚ
  ai_confidence : ℚ
deriving DecidableEq, Repr

/-- The freshly constructed `TradingState()` (`utils.py`, lines 12–30). -/
def TradingState.init : TradingState :=
  { active_position := false
    position_entry_price := 0
    position_size := 0
    position_leverage := 0
    position_side := none
    take_profit_price := 0
    stop_loss_price := 0
    daily_trades := 0
    total_pnl := 0
    trades_history := []
    initial_balance := 0
    current_balance := 0
    ai_confidence := 0 }

/-- Python's built-in `round` on a non-negative-or-negative real value:
round half to even (banker's rounding), as applied to the float
`leverage` in `RiskManager.calculate_leverage`. -/
def pyRound (q : ℚ) : ℤ :=
  if q - ⌊q⌋ < 1/2 then ⌊q⌋
  else if 1/2 < q - ⌊q⌋ then ⌊q⌋ + 1
  else if ⌊q⌋ % 2 = 0 then ⌊q⌋ else ⌊q⌋ + 1

/-- `RiskManager.can_open_position` (`risk_management.py`, lines 197–216).
The three early `return False` branches, in source order. -/
def can_open_position (cfg : Config) (s : TradingState) : Bool :=
  if s.active_position then false
  else if cfg.maxDailyTrades ≤ s.daily_trades then false
  else if 0 < s.initial_balance ∧
      cfg.maxDrawdownPercentage / 100 ≤ |min 0 s.total_pnl| / s.initial_balance then false
  else true

/-- `RiskManager.calculate_position_size` (`risk_management.py`,
lines 123–141). -/
def calculate_position_size (cfg : Config) (s : TradingState)
    (available_balance : ℚ) : ℚ :=
  let position_size_pct := cfg.positionSizePercentage / 100
  let position_size_pct :=
    if s.total_pnl < 0 ∧ 0 < s.initial_balance then
      let current_drawdown := |s.total_pnl| / s.initial_balance
      let drawdown_factor :=
        max (1/2) (1 - current_drawdown / (cfg.maxDrawdownPercentage / 100))
      position_size_pct * drawdown_factor
    else position_size_pct
  let daily_trades_factor := 1 - ((s.daily_trades : ℚ) / cfg.maxDailyTrades * (1/2))
  let position_size_pct := position_size_pct * daily_trades_factor
  available_balance * position_size_pct

/-- `RiskManager.calculate_leverage` (`risk_management.py`, lines 143–156):
linear interpolation of the stored confidence between the leverage bounds,
Python-rounded, then clamped. -/
def calculate_leverage (cfg : Config) (confidence : ℚ) : ℤ :=
  let leverage := (cfg.minLeverage : ℚ) +
    confidence * ((cfg.maxLeverage : ℚ) - (cfg.minLeverage : ℚ))
  let leverage := pyRound leverage
  max cfg.minLeverage (min cfg.maxLeverage leverage)

/-- `RiskManager.calculate_take_profit` (`risk_management.py`,
lines 158–185).  `volatility = none` models a missing / unreadable
`'volatility'` column, for which the source substitutes `0.5`. -/
def calculate_take_profit (cfg : Config) (entry_price : ℚ) (side : Side)
    (volatility : Option ℚ) : ℚ :=
  let vol := volatility.getD (1/2)
  let volatility_factor := min 1 (vol / 2)
  let take_profit_pct := cfg.minTakeProfitPercentage / 100 +
    volatility_factor * (cfg.maxTakeProfitPercentage / 100 - cfg.minTakeProfitPercentage / 100)
  match side with
  | .buy => entry_price * (1 + take_profit_pct)
  | .sell => entry_price * (1 - take_profit_pct)

/-- `RiskManager.calculate_stop_loss` (`risk_management.py`,
lines 187–195). -/
def calculate_stop_loss (cfg : Config) (entry_price : ℚ) (side : Side) : ℚ :=
  match side with
  | .buy => entry_price * (1 - cfg.stopLossPercentage / 100)
  | .sell => entry_price * (1 + cfg.stopLossPercentage / 100)

/-- The per-cycle market-data frame handed to
`RiskManager.calculate_ai_confidence`: `isEmpty` models
`market_data.empty`, and each column holds `none` when the column is
absent (or empty), `some v` when its last entry is the value `v`. -/
structure MarketData where
  isEmpty : Bool
  rsi : Option ℚ
  ema_short : Option ℚ
  ema_medium : Option ℚ
  ema_long : Option ℚ
  volume_profile : Option ℚ
  volatility : Option ℚ
  bb_position : Option ℚ
deriving DecidableEq, Repr

/-- `safe_get_value` inside `calculate_ai_confidence`
(`risk_management.py`, lines 49–54): a missing column yields the default
middle value `0.5`. -/
def safe_get_value (column : Option ℚ) : ℚ :=
  column.getD (1/2)

/-- `RiskManager.calculate_ai_confidence` (`risk_management.py`,
lines 24–115), normal (non-raising) path: returns the confidence value
(the same value is stored in `state.ai_confidence`). -/
def calculate_ai_confidence (md : MarketData) (total_pnl : ℚ) : ℚ :=
  if md.isEmpty then 85/100
  else
    let rsi := safe_get_value md.rsi
    let factor1 :=
      if rsi < 30 then 1 - rsi / 30
      else if 70 < rsi then (rsi - 70) / 30
      else 3/10
    let ema_short := safe_get_value md.ema_short
    let ema_medium := safe_get_value md.ema_medium
    let ema_long := safe_get_value md.ema_long
    let factor2 :=
      if ema_medium < ema_short ∧ ema_long < ema_medium then 8/10
      else if ema_short < ema_medium ∧ ema_medium < ema_long then 8/10
      else if ema_medium < ema_short ∨ ema_long < ema_medium then 1/2
      else 3/10
    let volume_factor := safe_get_value md.volume_profile
    let factor3 := min (volume_factor / 2) 1
    let volatility := safe_get_value md.volatility
    let factor4 :=
      if volatility < 1/2 then volatility / (1/2)
      else max 0 (1 - (volatility - 1/2) / 2)
    let bb_position := safe_get_value md.bb_position
    let factor5 := if bb_position < 2/10 ∨ 8/10 < bb_position then 8/10 else 4/10
    let confidence := factor1 * (3/10) + factor2 * (2/10) + factor3 * (15/100) +
      factor4 * (15/100) + factor5 * (2/10)
    let confidence := if total_pnl < 0 then confidence * (8/10) else confidence
    min confidence 1

/-- `calculate_ai_confidence` including its `except` clause
(`risk_management.py`, lines 117–121): when an internal evaluation fault
is raised, the function returns the fixed value `0.5`. -/
def calculate_ai_confidence_total (fault : Bool) (md : MarketData)
    (total_pnl : ℚ) : ℚ :=
  if fault then 1/2 else calculate_ai_confidence md total_pnl

/-- The latest indicator values extracted at the top of
`TradingBot._check_entry_conditions` (`trading_bot.py`, lines 178–199). -/
structure Snapshot where
  close : ℚ
  rsi : ℚ
  ema_short : ℚ
  ema_medium : ℚ
  ema_long : ℚ
  macd : ℚ
  macd_signal : ℚ
  volatility : ℚ
  volume_profile : ℚ
deriving DecidableEq, Repr

/-- The long entry rule of `_check_entry_conditions`
(`trading_bot.py`, lines 219–224). -/
def buy_signal (cfg : Config) (snap : Snapshot) : Bool :=
  cfg.rsiOversold < snap.rsi ∧ snap.rsi < 60 ∧
  snap.ema_medium < snap.ema_short ∧
  snap.macd_signal < snap.macd ∧
  snap.ema_long < snap.close ∧
  cfg.volumeThreshold < snap.volume_profile

/-- The short entry rule of `_check_entry_conditions`
(`trading_bot.py`, lines 231–236). -/
def sell_signal (cfg : Config) (snap : Snapshot) : Bool :=
  snap.rsi < cfg.rsiOverbought ∧ 40 < snap.rsi ∧
  snap.ema_short < snap.ema_medium ∧
  snap.macd < snap.macd_signal ∧
  snap.close < snap.ema_long ∧
  cfg.volumeThreshold < snap.volume_profile

/-- `TradingState.update_pnl` (`utils.py`, lines 40–52): add the realized
pnl to the cumulative total and append a trade record whose `exit_price`
is reconstructed as `entry + pnl / size` (with `0` offset when the stored
size is zero). -/
def update_pnl (s : TradingState) (pnl : ℚ) : TradingState :=
  { s with
    total_pnl := s.total_pnl + pnl
    trades_history := s.trades_history ++
      [{ side := s.position_side
         entry_price := s.position_entry_price
         exit_price := s.position_entry_price +
           (if s.position_size ≠ 0 then pnl / s.position_size else 0)
         position_size := s.position_size
         leverage := s.position_leverage
         pnl := pnl }] }

/-- `TradingState.close_position` (`utils.py`, lines 54–63). -/
def close_position (s : TradingState) : TradingState :=
  { s with
    active_position := false
    position_entry_price := 0
    position_size := 0
    position_leverage := 0
    position_side := none
    take_profit_price := 0
    stop_loss_price := 0 }

/-- Which exit condition fired (the `exit_reason` string of
`_check_exit_conditions`). -/
inductive ExitReason where
  | takeProfit
  | stopLoss
  | timeExit
deriving DecidableEq, Repr

/-- Result of an entry/exit evaluation cycle: the state after the call,
whether the `except` handler ran (`telegram.notify_error` called), and —
for an exit — the reason and realized pnl of a completed close. -/
structure CycleResult where
  state : TradingState
  errorNotified : Bool
  exitReason : Option ExitReason
  closedPnl : Option ℚ
deriving DecidableEq, Repr

/-- `take_profit_hit` of `_check_exit_conditions` (`trading_bot.py`,
lines 310–314). -/
def take_profit_hit (s : TradingState) (current_price : ℚ) : Bool :=
  (s.position_side = some Side.buy ∧ s.take_profit_price ≤ current_price) ∨
  (s.position_side = some Side.sell ∧ current_price ≤ s.take_profit_price)

/-- `stop_loss_hit` of `_check_exit_conditions` (`trading_bot.py`,
lines 317–321). -/
def stop_loss_hit (s : TradingState) (current_price : ℚ) : Bool :=
  (s.position_side = some Side.buy ∧ current_price ≤ s.stop_loss_price) ∨
  (s.position_side = some Side.sell ∧ s.stop_loss_price ≤ current_price)

/-- `time_exit` of `_check_exit_conditions` (`trading_bot.py`,
lines 324–328): position older than 24 hours, with `position_entry_time`
set. -/
def time_exit_hit (hoursOpen : Option ℚ) : Bool :=
  match hoursOpen with
  | some h => decide (24 < h)
  | none => false

/-- `TradingBot._check_exit_conditions` (`trading_bot.py`, lines 296–375).
`hoursOpen` is the age the source derives from `position_entry_time`
(`none` when that field is `None`); `orderFault` models
`exchange.create_market_order` raising.  Faults modelled, in source
order: the base-quantity division when `position_entry_price = 0`
(line 337), the order call (line 339), and the ROI division when
`position_size = 0` (line 353); each is caught by the `except` handler,
which leaves the state untouched and notifies the error. -/
def check_exit_conditions (s : TradingState) (current_price : ℚ)
    (hoursOpen : Option ℚ) (orderFault : Bool) : CycleResult :=
  if ¬ s.active_position then ⟨s, false, none, none⟩
  else
    if take_profit_hit s current_price ∨ stop_loss_hit s current_price ∨
        time_exit_hit hoursOpen then
      let exit_reason :=
        if take_profit_hit s current_price then ExitReason.takeProfit
        else if stop_loss_hit s current_price then ExitReason.stopLoss
        else ExitReason.timeExit
      if s.position_entry_price = 0 then ⟨s, true, none, none⟩
      else if orderFault then ⟨s, true, none, none⟩
      else
        let position_size_base := s.position_size / s.position_entry_price
        let pnl :=
          if s.position_side = some Side.buy then
            (current_price - s.position_entry_price) * position_size_base *
              (s.position_leverage : ℚ)
          else
            (s.position_entry_price - current_price) * position_size_base *
              (s.position_leverage : ℚ)
        if s.position_size = 0 then ⟨s, true, none, none⟩
        else
          let s1 := update_pnl s pnl
          let s2 := close_position s1
          ⟨s2, false, some exit_reason, some pnl⟩
    else ⟨s, false, none, none⟩

/-- `TradingBot._check_entry_conditions` (`trading_bot.py`,
lines 174–294), state-changing core.  Faults modelled, in source order:
the base-amount division when the entry price is zero (line 264, argument
evaluation) and the order call itself (`orderFault`); each is caught by
the `except` handler, which leaves the state untouched and notifies. -/
def check_entry_conditions (cfg : Config) (s : TradingState)
    (snap : Snapshot) (orderFault : Bool) : CycleResult :=
  let buy := buy_signal cfg snap
  let sell := sell_signal cfg snap
  if buy ∨ sell then
    let side := if buy then Side.buy else Side.sell
    let position_size := calculate_position_size cfg s s.current_balance
    let leverage := calculate_leverage cfg s.ai_confidence
    let entry_price := snap.close
    let stop_loss := calculate_stop_loss cfg entry_price side
    let take_profit := calculate_take_profit cfg entry_price side (some snap.volatility)
    if entry_price = 0 then ⟨s, true, none, none⟩
    else if orderFault then ⟨s, true, none, none⟩
    else
      ⟨{ s with
          active_position := true
          position_side := some side
          position_entry_price := entry_price
          position_size := position_size
          position_leverage := leverage
          take_profit_price := take_profit
          stop_loss_price := stop_loss
          daily_trades := s.daily_trades + 1 },
        false, none, none⟩
  else ⟨s, false, none, none⟩

/-- `data['close'].diff()` (`utils.py`, line 92): successive differences,
with `NaN` (modelled `none`) at index 0.  Empty input yields an empty
series. -/
def seriesDiff (xs : List ℚ) : List (Option ℚ) :=
  match xs with
  | [] => []
  | _ :: t => none :: (t.zip xs).map (fun p => some (p.1 - p.2))

/-- `delta.where(delta > 0, 0)` (`utils.py`, line 93): entries where the
condition is false — including the `NaN` head, for which `NaN > 0` is
false — are replaced by `0`. -/
def whereGain (d : Option ℚ) : ℚ :=
  match d with
  | some x => if 0 < x then x else 0
  | none => 0

/-- `-delta.where(delta < 0, 0)` (`utils.py`, line 94). -/
def whereLoss (d : Option ℚ) : ℚ :=
  match d with
  | some x => if x < 0 then -x else 0
  | none => 0

/-- `series.rolling(window=w).mean()` on a fully defined series
(`utils.py`, lines 96–97): `NaN` (`none`) until `w` values have been seen,
then the mean of the trailing window of `w` entries. -/
def rollingMean (w : ℕ) (xs : List ℚ) : List (Option ℚ) :=
  (List.range xs.length).map fun i =>
    if i + 1 < w then none
    else some ((((xs.take (i + 1)).drop (i + 1 - w)).sum) / w)

/-- `rs = avg_gain / avg_loss; rsi = 100 - 100/(1+rs)` (`utils.py`,
lines 99–100) under IEEE-754 semantics for the non-negative averages the
pipeline produces: `avg_loss = 0` with `avg_gain > 0` gives `rs = +inf`
and `rsi = 100`; `0 / 0` gives `NaN` (`none`). -/
def rsiFromAvgs (avgGain avgLoss : ℚ) : Option ℚ :=
  if avgLoss = 0 then
    if 0 < avgGain then some 100 else none
  else some (100 - 100 / (1 + avgGain / avgLoss))

/-- `utils.calculate_rsi` (`utils.py`, lines 90–102), as the per-bar series
of RSI values (`none` = `NaN`). -/
def calculate_rsi (closes : List ℚ) (period : ℕ) : List (Option ℚ) :=
  let delta := seriesDiff closes
  let gain := delta.map whereGain
  let loss := delta.map whereLoss
  List.zipWith
    (fun g l =>
      match g, l with
      | some a, some b => rsiFromAvgs a b
      | _, _ => none)
    (rollingMean period gain) (rollingMean period loss)

/-- Reference formula for the delta at bar `j` as `calculate_rsi`
effectively consumes it: the undefined first delta is coerced to `0` by
the `where` masking, later deltas are the close-to-close differences. -/
def deltaAt (closes : List ℚ) (j : ℕ) : ℚ :=
  if j = 0 then 0 else closes.getD j 0 - closes.getD (j - 1) 0

/-- Reference formula: simple rolling mean of the positive deltas over the
`period` bars ending at bar `i`. -/
def avgGainAt (closes : List ℚ) (period i : ℕ) : ℚ :=
  (((List.range period).map
    (fun k => max (deltaAt closes (i + 1 - period + k)) 0)).sum) / period

/-- Reference formula: simple rolling mean of the (negated) negative
deltas over the `period` bars ending at bar `i`. -/
def avgLossAt (closes : List ℚ) (period i : ℕ) : ℚ :=
  (((List.range period).map
    (fun k => max (-(deltaAt closes (i + 1 - period + k))) 0)).sum) / period

/-- The spec's realized-pnl formula:
`(exit − entry) × (size / entry) × leverage` for a long position, the
negation of the price-difference term for a short position. -/
def pnl_formula (sd : Side) (entry_price position_size : ℚ) (leverage : ℤ)
    (exit_price : ℚ) : ℚ :=
  match sd with
  | .buy => (exit_price - entry_price) * (position_size / entry_price) * (leverage : ℚ)
  | .sell => -((exit_price - entry_price) * (position_size / entry_price) * (leverage : ℚ))

/-- Scenario E of the spec: initial balance 10000, cumulative pnl −1600,
no active position, zero daily trades. -/
def scenarioE : TradingState :=
  { TradingState.init with initial_balance := 10000, total_pnl := -1600 }

/-- Scenario D of the spec: long position opened at 100, size 1000
(quote), leverage 10, stop-loss 97, take-profit 106. -/
def scenarioD : TradingState :=
  { TradingState.init with
    active_position := true
    position_side := some Side.buy
    position_entry_price := 100
    position_size := 1000
    position_leverage := 10
    take_profit_price := 106
    stop_loss_price := 97 }

/-- A non-empty market-data frame in which every indicator column is
absent. -/
def mdAllAbsent : MarketData :=
  ⟨false, none, none, none, none, none, none, none⟩

/-- Scenario A of the spec: 20 closes rising +1 each bar, 100 → 119. -/
def scenarioACloses : List ℚ :=
  [100, 101, 102, 103, 104, 105, 106, 107, 108, 109,
   110, 111, 112, 113, 114, 115, 116, 117, 118, 119]

/-! ## Theorems -/

/-- C1: the can-open gate returns false if and only if a position is
already active, or the daily trade count has reached the configured
limit, or the loss-only drawdown ratio (`|min(0, totalPnl)| /
initialBalance`, checked only when `initialBalance > 0`) has reached the
configured max drawdown; and in Scenario E (initial balance 10000,
total pnl −1600, max drawdown 15 %, no active position, zero daily
trades) it returns false. -/
theorem can_open_position_spec :
    (∀ cfg : Config, ∀ s : TradingState,
      (can_open_position cfg s = false ↔
        (s.active_position = true ∨ cfg.maxDailyTrades ≤ s.daily_trades ∨
          (0 < s.initial_balance ∧
            cfg.maxDrawdownPercentage / 100 ≤ |min 0 s.total_pnl| / s.initial_balance)))) ∧
    can_open_position defaultConfig scenarioE = false := by
  constructor
  · intro cfg s
    unfold can_open_position
    split_ifs with h1 h2 h3 <;> simp_all
  · norm_num [can_open_position, scenarioE, defaultConfig, TradingState.init]

/-- C5: `calculate_position_size` returns
`availableBalance × baseFraction × drawdownFactor × tradeFactor`, where
the drawdown factor `max(0.5, 1 − currentDrawdown/maxDrawdown)` is
applied only when cumulative pnl is negative and the initial balance is
positive, and the trade factor `1 − (dailyTrades/maxDailyTrades)×0.5` is
always applied; Scenario B (balance 10000, size 25 %, no drawdown, zero
daily trades) yields 2500. -/
theorem calculate_position_size_spec :
    (∀ cfg : Config, ∀ s : TradingState, ∀ b : ℚ,
      calculate_position_size cfg s b =
        b * (cfg.positionSizePercentage / 100) *
          (if s.total_pnl < 0 ∧ 0 < s.initial_balance then
            max (1/2) (1 - (|s.total_pnl| / s.initial_balance) /
              (cfg.maxDrawdownPercentage / 100))
          else 1) *
          (1 - (s.daily_trades : ℚ) / cfg.maxDailyTrades * (1/2))) ∧
    calculate_position_size defaultConfig TradingState.init 10000 = 2500 := by
  constructor
  · intro cfg s b
    unfold calculate_position_size
    split_ifs <;> ring
  · norm_num [calculate_position_size, defaultConfig, TradingState.init]

/-- C7: the long entry rule and the short entry rule can never hold
simultaneously, for any indicator values and thresholds. -/
theorem entry_signals_mutually_exclusive :
    ∀ cfg : Config, ∀ snap : Snapshot,
      (buy_signal cfg snap && sell_signal cfg snap) = false := by
  intro cfg snap
  cases hb : buy_signal cfg snap with
  | false => simp
  | true =>
    simp only [Bool.true_and]
    simp only [buy_signal, decide_eq_true_eq] at hb
    simp only [sell_signal, decide_eq_false_iff_not]
    intro hs
    exact absurd hs.2.2.1 (not_lt.mpr hb.2.2.1.le)

/-- C3 counterexample: a non-empty market-data frame with every
indicator column absent does not yield the 0.85 fallback — the scorer
substitutes 0.5 per column and computes 0.6225. -/
theorem ai_confidence_absent_columns_not_fallback :
    calculate_ai_confidence mdAllAbsent 0 = 249/400 ∧ (249/400 : ℚ) ≠ 85/100 := by
  constructor
  · norm_num [calculate_ai_confidence, mdAllAbsent, safe_get_value, min_def, max_def]
  · norm_num

/-- C3 (amended): the fixed 0.85 fallback is returned exactly for an
empty market-data frame; an internal evaluation fault returns 0.5; a
non-empty frame with absent indicator columns gets per-column 0.5
defaults and a normally computed score (0.6225 when every column is
absent and cumulative pnl is nonnegative). -/
theorem ai_confidence_fallback_spec :
    (∀ md : MarketData, ∀ pnl : ℚ, md.isEmpty = true →
      calculate_ai_confidence md pnl = 85/100) ∧
    (∀ md : MarketData, ∀ pnl : ℚ,
      calculate_ai_confidence_total true md pnl = 1/2) ∧
    calculate_ai_confidence mdAllAbsent 0 = 249/400 := by
  refine ⟨?_, ?_, ?_⟩
  · intro md pnl h
    unfold calculate_ai_confidence
    rw [if_pos h]
  · intro md pnl
    rfl
  · norm_num [calculate_ai_confidence, mdAllAbsent, safe_get_value, min_def, max_def]

/-- C3 witness: the empty-frame branch of the amended statement at a
concrete input. -/
theorem ai_confidence_fallback_spec_witness :
    calculate_ai_confidence ⟨true, none, none, none, none, none, none, none⟩ 0 = 85/100 :=
  ai_confidence_fallback_spec.1 ⟨true, none, none, none, none, none, none, none⟩ 0 rfl

/-- Helper: Python's banker's rounding lands on a nearest integer. -/
lemma pyRound_nearest (q : ℚ) : |q - (pyRound q : ℚ)| ≤ 1/2 := by
  have h0 : (⌊q⌋ : ℚ) ≤ q := Int.floor_le q
  have h1 : q < ⌊q⌋ + 1 := Int.lt_floor_add_one q
  unfold pyRound
  split_ifs <;> rw [abs_le] <;> constructor <;> push_cast <;> linarith

/-- C4: `calculate_leverage` equals the confidence interpolated between
the leverage bounds, Python-rounded (a nearest integer) and clamped to
`[minLeverage, maxLeverage]`, hence integral and within bounds whenever
`minLeverage ≤ maxLeverage`; confidence 1.0 with bounds 5/20 yields 20
and confidence 0.0 yields 5. -/
theorem calculate_leverage_spec :
    (∀ cfg : Config, ∀ conf : ℚ, cfg.minLeverage ≤ cfg.maxLeverage →
      (calculate_leverage cfg conf =
        max cfg.minLeverage (min cfg.maxLeverage
          (pyRound ((cfg.minLeverage : ℚ) +
            conf * ((cfg.maxLeverage : ℚ) - (cfg.minLeverage : ℚ))))) ∧
      cfg.minLeverage ≤ calculate_leverage cfg conf ∧
      calculate_leverage cfg conf ≤ cfg.maxLeverage ∧
      |((cfg.minLeverage : ℚ) + conf * ((cfg.maxLeverage : ℚ) - (cfg.minLeverage : ℚ))) -
        (pyRound ((cfg.minLeverage : ℚ) +
          conf * ((cfg.maxLeverage : ℚ) - (cfg.minLeverage : ℚ))) : ℚ)| ≤ 1/2)) ∧
    calculate_leverage defaultConfig 1 = 20 ∧ calculate_leverage defaultConfig 0 = 5 := by
  refine ⟨?_, ?_, ?_⟩
  · intro cfg conf hle
    refine ⟨rfl, ?_, ?_, pyRound_nearest _⟩
    · exact le_max_left _ _
    · exact max_le hle (min_le_left _ _)
  · norm_num [calculate_leverage, defaultConfig, pyRound]
  · norm_num [calculate_leverage, defaultConfig, pyRound]

/-- C4 witness: the bound statement at confidence 0.5 with the default
configuration (interpolated value 12.5, banker-rounded to 12). -/
theorem calculate_leverage_spec_witness :
    defaultConfig.minLeverage ≤ defaultConfig.maxLeverage ∧
    defaultConfig.minLeverage ≤ calculate_leverage defaultConfig (1/2) ∧
    calculate_leverage defaultConfig (1/2) ≤ defaultConfig.maxLeverage ∧
    calculate_leverage defaultConfig (1/2) = 12 := by
  have h := calculate_leverage_spec.1 defaultConfig (1/2) (by norm_num [defaultConfig])
  exact ⟨by norm_num [defaultConfig], h.2.1, h.2.2.1,
    by norm_num [calculate_leverage, defaultConfig, pyRound, Int.floor_eq_iff]⟩

/-- C6: with entry price `E > 0`, configured stop-loss percentage in
(0, 100) and take-profit percentages with `0 < minTP ≤ maxTP < 100`
(fractions in (0,1)), and nonnegative (or absent) volatility, the long
exits satisfy `stopLoss < E < takeProfit` and the short exits satisfy
`takeProfit < E < stopLoss`. -/
theorem stop_take_profit_ordering (cfg : Config) (E : ℚ) (vol : Option ℚ)
    (hE : 0 < E)
    (hsl0 : 0 < cfg.stopLossPercentage) (hsl1 : cfg.stopLossPercentage < 100)
    (htp0 : 0 < cfg.minTakeProfitPercentage)
    (htple : cfg.minTakeProfitPercentage ≤ cfg.maxTakeProfitPercentage)
    (htp1 : cfg.maxTakeProfitPercentage < 100)
    (hvol : ∀ v : ℚ, vol = some v → 0 ≤ v) :
    calculate_stop_loss cfg E Side.buy < E ∧
    E < calculate_take_profit cfg E Side.buy vol ∧
    calculate_take_profit cfg E Side.sell vol < E ∧
    E < calculate_stop_loss cfg E Side.sell := by
  have hv : 0 ≤ vol.getD (1/2) := by
    cases vol with
    | none => norm_num
    | some v => exact hvol v rfl
  have hf0 : 0 ≤ min 1 (vol.getD (1/2) / 2) :=
    le_min (by norm_num) (by linarith)
  have hf1 : min 1 (vol.getD (1/2) / 2) ≤ 1 := min_le_left _ _
  set f := min 1 (vol.getD (1/2) / 2) with hfdef
  have hpct0 : 0 < cfg.minTakeProfitPercentage / 100 +
      f * (cfg.maxTakeProfitPercentage / 100 - cfg.minTakeProfitPercentage / 100) := by
    nlinarith
  have hpct1 : cfg.minTakeProfitPercentage / 100 +
      f * (cfg.maxTakeProfitPercentage / 100 - cfg.minTakeProfitPercentage / 100) < 1 := by
    nlinarith
  unfold calculate_stop_loss calculate_take_profit
  simp only [← hfdef]
  refine ⟨?_, ?_, ?_, ?_⟩ <;> nlinarith

/-- C6 witness: the ordering at entry price 100 with the default
configuration and volatility 1 (take-profit percentage 7 %). -/
theorem stop_take_profit_ordering_witness :
    calculate_stop_loss defaultConfig 100 Side.buy < 100 ∧
    (100 : ℚ) < calculate_take_profit defaultConfig 100 Side.buy (some 1) ∧
    calculate_take_profit defaultConfig 100 Side.sell (some 1) < 100 ∧
    (100 : ℚ) < calculate_stop_loss defaultConfig 100 Side.sell := by
  have h := stop_take_profit_ordering defaultConfig 100 (some 1)
    (by norm_num) (by norm_num [defaultConfig]) (by norm_num [defaultConfig])
    (by norm_num [defaultConfig]) (by norm_num [defaultConfig]) (by norm_num [defaultConfig])
    (fun v hv => by injection hv with h; rw [← h]; norm_num)
  exact h

/-- C2: when an open position's exit triggers (take-profit, stop-loss or
24-hour time exit) and no fault occurs, the realized pnl equals
`(exitPrice − entryPrice) × (positionSize / entryPrice) × leverage` for a
long position and the negation of that price-difference term for a short
position. -/
theorem exit_realized_pnl (s : TradingState) (p : ℚ) (h : Option ℚ) (sd : Side)
    (hact : s.active_position = true)
    (hside : s.position_side = some sd)
    (hentry : s.position_entry_price ≠ 0)
    (hsize : s.position_size ≠ 0)
    (htrig : take_profit_hit s p = true ∨ stop_loss_hit s p = true ∨
      time_exit_hit h = true) :
    (check_exit_conditions s p h false).closedPnl =
      some (pnl_formula sd s.position_entry_price s.position_size
        s.position_leverage p) := by
  unfold check_exit_conditions
  rw [if_neg (by simp [hact]), if_pos htrig, if_neg hentry, if_neg (by simp),
    if_neg hsize]
  cases sd with
  | buy => simp [hside, pnl_formula]
  | sell =>
    simp only [hside, pnl_formula]
    rw [if_neg (by simp)]
    congr 1
    ring

/-- C2 witness: Scenario D — long opened at 100, size 1000 (quote),
leverage 10, take-profit 106; next tick price 107 triggers the
take-profit path and realizes pnl 700. -/
theorem exit_realized_pnl_witness :
    (check_exit_conditions scenarioD 107 (some 1) false).closedPnl = some 700 ∧
    (check_exit_conditions scenarioD 107 (some 1) false).exitReason =
      some ExitReason.takeProfit := by
  have h := exit_realized_pnl scenarioD 107 (some 1) Side.buy rfl rfl
    (by norm_num [scenarioD, TradingState.init]) (by norm_num [scenarioD, TradingState.init])
    (Or.inl (by norm_num [take_profit_hit, scenarioD, TradingState.init]))
  refine ⟨?_, ?_⟩
  · rw [h]
    norm_num [pnl_formula, scenarioD, TradingState.init]
  · norm_num [check_exit_conditions, take_profit_hit, stop_loss_hit, time_exit_hit,
      scenarioD, TradingState.init]

/-- C9: every fault raised during entry or exit evaluation is caught by
the cycle's handler, which reports it via the notification collaborator
and leaves the TradingState exactly as it was — no partial state change
is applied by a faulting cycle. -/
theorem cycle_fault_leaves_state_unchanged :
    (∀ cfg : Config, ∀ s : TradingState, ∀ snap : Snapshot, ∀ orderFault : Bool,
      (check_entry_conditions cfg s snap orderFault).errorNotified = true →
      (check_entry_conditions cfg s snap orderFault).state = s) ∧
    (∀ s : TradingState, ∀ p : ℚ, ∀ h : Option ℚ, ∀ orderFault : Bool,
      (check_exit_conditions s p h orderFault).errorNotified = true →
      (check_exit_conditions s p h orderFault).state = s) := by
  constructor
  · intro cfg s snap orderFault hnote
    unfold check_entry_conditions at hnote ⊢
    by_cases h1 : buy_signal cfg snap = true ∨ sell_signal cfg snap = true
    · rw [if_pos h1] at hnote ⊢
      by_cases h2 : snap.close = 0
      · rw [if_pos h2]
      · rw [if_neg h2] at hnote ⊢
        cases orderFault with
        | true => simp
        | false => simp at hnote
    · rw [if_neg h1] at hnote
      simp at hnote
  · intro s p h orderFault hnote
    unfold check_exit_conditions at hnote ⊢
    by_cases h0 : ¬ s.active_position = true
    · rw [if_pos h0]
    · rw [if_neg h0] at hnote ⊢
      by_cases h1 : take_profit_hit s p = true ∨ stop_loss_hit s p = true ∨
          time_exit_hit h = true
      · rw [if_pos h1] at hnote ⊢
        by_cases h2 : s.position_entry_price = 0
        · rw [if_pos h2]
        · rw [if_neg h2] at hnote ⊢
          cases orderFault with
          | true => simp
          | false =>
            rw [if_neg (by simp)] at hnote ⊢
            by_cases h3 : s.position_size = 0
            · rw [if_pos h3]
            · rw [if_neg h3] at hnote
              simp at hnote
      · rw [if_neg h1] at hnote
        simp at hnote

/-- C9 witness: an order fault while closing the Scenario D position is
reported and leaves the state untouched. -/
theorem cycle_fault_leaves_state_unchanged_witness :
    (check_exit_conditions scenarioD 107 (some 1) true).errorNotified = true ∧
    (check_exit_conditions scenarioD 107 (some 1) true).state = scenarioD := by
  have hn : (check_exit_conditions scenarioD 107 (some 1) true).errorNotified = true := by
    norm_num [check_exit_conditions, take_profit_hit, stop_loss_hit, time_exit_hit,
      scenarioD, TradingState.init]
  exact ⟨hn, cycle_fault_leaves_state_unchanged.2 scenarioD 107 (some 1) true hn⟩

/-- C10: the trade record appended on a (fault-free) close stores
`exit_price = entry_price + pnl / position_size`; since the pnl already
contains the leverage multiplier, this reconstruction differs from the
price the exit was evaluated against whenever the pnl is nonzero and the
leverage differs from the entry price. -/
theorem trade_record_exit_price_reconstruction (s : TradingState) (p : ℚ)
    (h : Option ℚ) (sd : Side)
    (hact : s.active_position = true)
    (hside : s.position_side = some sd)
    (hentry : 0 < s.position_entry_price)
    (hlev : 0 < s.position_leverage)
    (hsize : s.position_size ≠ 0)
    (htrig : take_profit_hit s p = true ∨ stop_loss_hit s p = true ∨
      time_exit_hit h = true) :
    (check_exit_conditions s p h false).state.trades_history =
      s.trades_history ++
        [{ side := some sd
           entry_price := s.position_entry_price
           exit_price := s.position_entry_price +
             pnl_formula sd s.position_entry_price s.position_size
               s.position_leverage p / s.position_size
           position_size := s.position_size
           leverage := s.position_leverage
           pnl := pnl_formula sd s.position_entry_price s.position_size
             s.position_leverage p }] ∧
    (pnl_formula sd s.position_entry_price s.position_size s.position_leverage p ≠ 0 →
      (s.position_leverage : ℚ) ≠ s.position_entry_price →
      s.position_entry_price +
        pnl_formula sd s.position_entry_price s.position_size s.position_leverage p /
          s.position_size ≠ p) := by
  have he : s.position_entry_price ≠ 0 := ne_of_gt hentry
  have hL : (0 : ℚ) < (s.position_leverage : ℚ) := by exact_mod_cast hlev
  constructor
  · unfold check_exit_conditions
    rw [if_neg (by simp [hact]), if_pos htrig, if_neg he, if_neg (by simp),
      if_neg hsize]
    simp only [close_position, update_pnl]
    cases sd with
    | buy => simp [hside, pnl_formula, if_pos hsize]
    | sell =>
      simp only [hside, pnl_formula, if_pos hsize]
      rw [if_neg (by simp)]
      rw [show -((p - s.position_entry_price) *
          (s.position_size / s.position_entry_price) * (s.position_leverage : ℚ)) =
          (s.position_entry_price - p) * (s.position_size / s.position_entry_price) *
            (s.position_leverage : ℚ) from by ring]
  · intro hpnl hne heq
    cases sd with
    | buy =>
      have hpe : p ≠ s.position_entry_price := by
        intro hq
        exact hpnl (by simp [pnl_formula, hq])
      rw [show pnl_formula Side.buy s.position_entry_price s.position_size
          s.position_leverage p / s.position_size =
          (p - s.position_entry_price) * (s.position_leverage : ℚ) /
            s.position_entry_price from by
        unfold pnl_formula
        field_simp
        ring] at heq
      have key : (s.position_entry_price - p) *
          (s.position_entry_price - (s.position_leverage : ℚ)) = 0 := by
        field_simp at heq
        linear_combination heq
      rcases mul_eq_zero.mp key with h4 | h4
      · exact hpe (by linarith)
      · exact hne (by linarith)
    | sell =>
      have hpe : p ≠ s.position_entry_price := by
        intro hq
        exact hpnl (by simp [pnl_formula, hq])
      rw [show pnl_formula Side.sell s.position_entry_price s.position_size
          s.position_leverage p / s.position_size =
          -((p - s.position_entry_price) * (s.position_leverage : ℚ) /
            s.position_entry_price) from by
        unfold pnl_formula
        field_simp
        ring] at heq
      have key : (s.position_entry_price - p) *
          (s.position_entry_price + (s.position_leverage : ℚ)) = 0 := by
        field_simp at heq
        linear_combination heq
      rcases mul_eq_zero.mp key with h4 | h4
      · exact hpe (by linarith)
      · linarith

/-- C10 witness: the Scenario D close (long at 100, size 1000, leverage
10, exit evaluated at 107) records `exit_price = 100 + 700/1000 = 100.7`,
not the actual closing price 107. -/
theorem trade_record_exit_price_reconstruction_witness :
    (check_exit_conditions scenarioD 107 (some 1) false).state.trades_history =
      [{ side := some Side.buy, entry_price := 100, exit_price := 1007/10,
         position_size := 1000, leverage := 10, pnl := 700 }] ∧
    ((1007 : ℚ)/10 ≠ 107) := by
  have h := trade_record_exit_price_reconstruction scenarioD 107 (some 1) Side.buy
    rfl rfl (by norm_num [scenarioD, TradingState.init])
    (by norm_num [scenarioD, TradingState.init])
    (by norm_num [scenarioD, TradingState.init])
    (Or.inl (by norm_num [take_profit_hit, scenarioD, TradingState.init]))
  constructor
  · rw [h.1]
    norm_num [scenarioD, TradingState.init, pnl_formula]
  · norm_num

/-- Helper: `seriesDiff` preserves the series length. -/
lemma length_seriesDiff (xs : List ℚ) : (seriesDiff xs).length = xs.length := by
  cases xs with
  | nil => rfl
  | cons c t => simp [seriesDiff, List.length_zip]

/-- Helper: the `where` masking on a defined delta is a `max` with 0. -/
lemma whereGain_some (x : ℚ) : whereGain (some x) = max x 0 := by
  simp only [whereGain]
  split_ifs with h
  · exact (max_eq_left h.le).symm
  · exact (max_eq_right (not_lt.mp h)).symm

/-- Helper: the loss masking on a defined delta is a `max` with 0. -/
lemma whereLoss_some (x : ℚ) : whereLoss (some x) = max (-x) 0 := by
  simp only [whereLoss]
  split_ifs with h
  · exact (max_eq_left (by linarith)).symm
  · exact (max_eq_right (by linarith)).symm

/-- Helper: the reference delta at a positive bar index. -/
lemma deltaAt_succ (closes : List ℚ) (k : ℕ) :
    deltaAt closes (k + 1) = closes.getD (k + 1) 0 - closes.getD k 0 := by
  simp [deltaAt]

/-- Helper: the gain series produced by `diff` followed by `where`
masking equals, bar by bar, `max(delta, 0)` with the undefined first
delta coerced to 0. -/
lemma seriesDiff_map_whereGain (closes : List ℚ) :
    (seriesDiff closes).map whereGain =
      (List.range closes.length).map (fun j => max (deltaAt closes j) 0) := by
  apply List.ext_getElem
  · simp [length_seriesDiff]
  · intro n h1 h2
    cases closes with
    | nil => simp [seriesDiff] at h1
    | cons c t =>
      rw [List.getElem_map, List.getElem_map, List.getElem_range]
      have hn : n < t.length + 1 := by
        simpa [length_seriesDiff, seriesDiff, List.length_zip] using h1
      cases n with
      | zero => simp [seriesDiff, whereGain, deltaAt]
      | succ k =>
        have hk : k < t.length := by omega
        have hkc : k < (c :: t).length := by simp; omega
        have hk1 : k + 1 < (c :: t).length := by simp; omega
        simp only [seriesDiff, List.getElem_cons_succ, List.getElem_map,
          List.getElem_zip]
        rw [whereGain_some, deltaAt_succ, List.getD_eq_getElem _ _ hk1,
          List.getD_eq_getElem _ _ hkc, List.getElem_cons_succ]

/-- Helper: same statement for the loss series. -/
lemma seriesDiff_map_whereLoss (closes : List ℚ) :
    (seriesDiff closes).map whereLoss =
      (List.range closes.length).map (fun j => max (-(deltaAt closes j)) 0) := by
  apply List.ext_getElem
  · simp [length_seriesDiff]
  · intro n h1 h2
    cases closes with
    | nil => simp [seriesDiff] at h1
    | cons c t =>
      rw [List.getElem_map, List.getElem_map, List.getElem_range]
      have hn : n < t.length + 1 := by
        simpa [length_seriesDiff, seriesDiff, List.length_zip] using h1
      cases n with
      | zero => simp [seriesDiff, whereLoss, deltaAt]
      | succ k =>
        have hk : k < t.length := by omega
        have hkc : k < (c :: t).length := by simp; omega
        have hk1 : k + 1 < (c :: t).length := by simp; omega
        simp only [seriesDiff, List.getElem_cons_succ, List.getElem_map,
          List.getElem_zip]
        rw [whereLoss_some, deltaAt_succ, List.getD_eq_getElem _ _ hk1,
          List.getD_eq_getElem _ _ hkc, List.getElem_cons_succ]

/-- Helper: the length of a rolling mean equals the series length. -/
lemma length_rollingMean (w : ℕ) (xs : List ℚ) :
    (rollingMean w xs).length = xs.length := by
  simp [rollingMean]

/-- Helper: value of the rolling mean at a valid index. -/
lemma rollingMean_getElem (w : ℕ) (xs : List ℚ) (i : ℕ)
    (hi : i < (rollingMean w xs).length) :
    (rollingMean w xs)[i] =
      if i + 1 < w then none
      else some ((((xs.take (i + 1)).drop (i + 1 - w)).sum) / w) := by
  unfold rollingMean
  rw [List.getElem_map, List.getElem_range]

/-- Helper: the sum of a trailing window slice as a sum over offsets. -/
lemma slice_sum (ys : List ℚ) (a w : ℕ) (hw : a + w ≤ ys.length) :
    ((ys.take (a + w)).drop a).sum =
      ((List.range w).map (fun k => ys.getD (a + k) 0)).sum := by
  rw [List.drop_take]
  have h1 : a + w - a = w := by omega
  rw [h1]
  congr 1
  apply List.ext_getElem
  · simp
    omega
  · intro k hk1 hk2
    have hkw : k < w := by
      simpa using hk2
    rw [List.getElem_take, List.getElem_drop, List.getElem_map, List.getElem_range,
      List.getD_eq_getElem _ _ (by omega)]

/-- Helper: characterization of `calculate_rsi` at every valid bar index:
`NaN` strictly before bar `period − 1`, and from bar `period − 1` onward
the value `100 − 100/(1 + avgGain/avgLoss)` (under the IEEE semantics of
`rsiFromAvgs`) of the simple rolling means of the masked deltas. -/
lemma calculate_rsi_getD (closes : List ℚ) (period i : ℕ) (hp : 0 < period)
    (hi : i < closes.length) :
    (calculate_rsi closes period).getD i none =
      if i + 1 < period then none
      else rsiFromAvgs (avgGainAt closes period i) (avgLossAt closes period i) := by
  have hlen : (calculate_rsi closes period).length = closes.length := by
    simp [calculate_rsi, List.length_zipWith, length_rollingMean, length_seriesDiff]
  rw [List.getD_eq_getElem _ _ (by omega)]
  simp only [calculate_rsi]
  rw [List.getElem_zipWith]
  rw [rollingMean_getElem _ _ _ (by simp [length_rollingMean, length_seriesDiff]; omega),
    rollingMean_getElem _ _ _ (by simp [length_rollingMean, length_seriesDiff]; omega)]
  by_cases hlt : i + 1 < period
  · rw [if_pos hlt, if_pos hlt, if_pos hlt]
  · rw [if_neg hlt, if_neg hlt, if_neg hlt]
    have ha : i + 1 - period + period = i + 1 := by omega
    have hGlen : ((seriesDiff closes).map whereGain).length = closes.length := by
      simp [length_seriesDiff]
    have hLlen : ((seriesDiff closes).map whereLoss).length = closes.length := by
      simp [length_seriesDiff]
    have hgain : ((((seriesDiff closes).map whereGain).take (i + 1)).drop
        (i + 1 - period)).sum / (period : ℚ) = avgGainAt closes period i := by
      have hs := slice_sum ((seriesDiff closes).map whereGain) (i + 1 - period)
        period (by rw [hGlen]; omega)
      rw [ha] at hs
      rw [hs]
      unfold avgGainAt
      congr 2
      apply List.map_congr_left
      intro k hk
      have hkp : k < period := List.mem_range.mp hk
      rw [seriesDiff_map_whereGain closes,
        List.getD_eq_getElem _ _ (by simp; omega), List.getElem_map,
        List.getElem_range]
    have hloss : ((((seriesDiff closes).map whereLoss).take (i + 1)).drop
        (i + 1 - period)).sum / (period : ℚ) = avgLossAt closes period i := by
      have hs := slice_sum ((seriesDiff closes).map whereLoss) (i + 1 - period)
        period (by rw [hLlen]; omega)
      rw [ha] at hs
      rw [hs]
      unfold avgLossAt
      congr 2
      apply List.map_congr_left
      intro k hk
      have hkp : k < period := List.mem_range.mp hk
      rw [seriesDiff_map_whereLoss closes,
        List.getD_eq_getElem _ _ (by simp; omega), List.getElem_map,
        List.getElem_range]
    rw [hgain, hloss]

/-- C8 counterexample: with 20 closes rising +1 each bar and period 14,
the RSI at bar index 13 — within the first `period` bars, which the
claim asserts to be undefined — is already defined and equals 100: the
`where` masking coerces the undefined first delta to a zero gain and a
zero loss, so the rolling means are defined one bar early. -/
theorem rsi_defined_within_first_period_bars :
    (calculate_rsi scenarioACloses 14).getD 13 none = some 100 := by
  rw [calculate_rsi_getD scenarioACloses 14 13 (by norm_num)
    (by norm_num [scenarioACloses])]
  rw [if_neg (by norm_num)]
  have hg : avgGainAt scenarioACloses 14 13 = 13/14 := by
    norm_num [avgGainAt, deltaAt, scenarioACloses, List.range_succ]
  have hl : avgLossAt scenarioACloses 14 13 = 0 := by
    norm_num [avgLossAt, deltaAt, scenarioACloses, List.range_succ]
  rw [hg, hl]
  norm_num [rsiFromAvgs]

/-- C8 (amended): RSI is `100 − 100/(1 + avgGain/avgLoss)` where the
averages are simple rolling means over `period` bars of the positive and
negative successive close deltas (not Wilder's smoothing), with the
undefined first delta coerced to zero gain and zero loss; it is
undefined exactly for the first `period − 1` bars (defined from bar
index `period − 1` onward whenever the formula is); for 20 closes rising
+1 each bar with period 14, the RSI at the final bar equals 100. -/
theorem calculate_rsi_spec :
    (∀ closes : List ℚ, ∀ period i : ℕ, 0 < period → i < closes.length →
      (calculate_rsi closes period).getD i none =
        if i + 1 < period then none
        else rsiFromAvgs (avgGainAt closes period i) (avgLossAt closes period i)) ∧
    (calculate_rsi scenarioACloses 14).getD 19 none = some 100 := by
  constructor
  · intro closes period i hp hi
    exact calculate_rsi_getD closes period i hp hi
  · rw [calculate_rsi_getD scenarioACloses 14 19 (by norm_num)
      (by norm_num [scenarioACloses])]
    rw [if_neg (by norm_num)]
    have hg : avgGainAt scenarioACloses 14 19 = 1 := by
      norm_num [avgGainAt, deltaAt, scenarioACloses, List.range_succ]
    have hl : avgLossAt scenarioACloses 14 19 = 0 := by
      norm_num [avgLossAt, deltaAt, scenarioACloses, List.range_succ]
    rw [hg, hl]
    norm_num [rsiFromAvgs]

/-- C8 witness: the amended boundary at a concrete input — bar index 12
(within the first `period − 1` bars) of the Scenario A series is
undefined. -/
theorem calculate_rsi_spec_witness :
    (calculate_rsi scenarioACloses 14).getD 12 none = none := by
  have h := calculate_rsi_spec.1 scenarioACloses 14 12 (by norm_num)
    (by norm_num [scenarioACloses])
  rw [h, if_pos (by norm_num)]

end Paradox
